import Mathlib

/-!
Verification of the repost-proof video-processing service.

This file gives a shallow embedding, in Lean 4, of the two source files of
the repository (src/app.py and src/utils/ffmpeg_mods.py) and settles a
fixed list of claims about the service against that embedding.

Conventions of the embedding:
  * Python floats used for media durations and memory readings are modelled
    as rationals (all comparisons the code performs on them are exact at the
    values of interest).
  * Python strings are modelled as Lean `String`/`List Char`; Python's
    substring test `needle in hay` is the executable `pySub`.
  * Exception-raising code paths are modelled explicitly: functions that can
    fail take an outcome parameter describing what the external world
    (ffprobe, ffmpeg, the filesystem) did, and return the response the code
    computes for that outcome.
  * The filesystem is a list of present paths; the active-process dictionary
    is a list of job-id keys.
-/

/-! ## Python string helpers -/

/-- `str.lower()` on the character list of a Python string (the strings the
service lowercases are ASCII, where `Char.toLower` agrees with Python). -/
def pyLower (s : List Char) : List Char := s.map Char.toLower

/-- `needle` occurs at the very start of `hay`. -/
def leadsWith : List Char → List Char → Bool
  | [], _ => true
  | _ :: _, [] => false
  | a :: as, b :: bs => (a == b) && leadsWith as bs

/-- Python's substring containment test `needle in hay`. -/
def pySub (needle : List Char) : List Char → Bool
  | [] => leadsWith needle []
  | b :: bs => leadsWith needle (b :: bs) || pySub needle bs

/-- Python slicing `s[:n]`. -/
def pyTake (n : ℕ) (s : String) : String := String.mk (s.data.take n)

/-- Index of the last occurrence of `c` in `s` (`str.rfind`, as an Option). -/
def rfindIdx (c : Char) (s : List Char) : Option ℕ :=
  match s.reverse.findIdx? (fun x => x == c) with
  | none => none
  | some j => some (s.length - 1 - j)

/-- The extension component of `os.path.splitext` (posixpath): the suffix
from the last dot, provided that dot is after the last path separator and at
least one non-dot character precedes it within the basename. -/
def splitextExt (s : List Char) : List Char :=
  match rfindIdx '.' s with
  | none => []
  | some d =>
      let sep : ℤ :=
        match rfindIdx '/' s with
        | none => -1
        | some i => (i : ℤ)
      if sep < (d : ℤ) ∧ ((s.take d).drop (sep + 1).toNat).any (fun x => x != '.')
      then s.drop d
      else []

/-! ## Embedding of src/utils/ffmpeg_mods.py -/

/-- The profile dictionary returned by `get_video_info`. -/
structure VideoInfo where
  duration : ℚ
  width : ℕ
  height : ℕ
  has_audio : Bool
deriving Repr, DecidableEq

/-- `codec_type` of an ffprobe stream entry. -/
inductive StreamType where
  | video
  | audio
  | other
deriving Repr, DecidableEq

/-- One entry of the `streams` array of an ffprobe report.  `width`/`height`
are `none` when the key is absent (the code then uses `.get` defaults). -/
structure ProbeStream where
  codec_type : StreamType
  width : Option ℕ
  height : Option ℕ
deriving Repr, DecidableEq

/-- The parsed ffprobe JSON report: the `streams` array together with
`format.duration` (`none` when the format report carries no duration key,
in which case the code's `.get('duration', 0)` yields 0). -/
structure ProbeReport where
  streams : List ProbeStream
  formatDuration : Option ℚ
deriving Repr, DecidableEq

/-- What the ffprobe subprocess invocation did: `success` is a zero exit
with parseable JSON; `failure` covers a non-zero exit, a timeout, and any
exception while parsing (malformed JSON, missing keys, bad numbers). -/
inductive ProbeOutcome where
  | success (report : ProbeReport)
  | failure
deriving Repr, DecidableEq

/-- The default profile returned when probing fails
(`{'duration': 30, 'width': 1920, 'height': 1080, 'has_audio': True}`). -/
def default_video_info : VideoInfo := ⟨30, 1920, 1080, true⟩

/-- `get_video_info` (ffmpeg_mods.py lines 10-36).  On a successful probe it
takes the duration from the format report (0 when absent), width/height from
the first video stream (1920/1080 when that stream or key is absent), and
audio presence from the existence of an audio stream; every failure path
falls through to the default profile. -/
def get_video_info : ProbeOutcome → VideoInfo
  | ProbeOutcome.failure => default_video_info
  | ProbeOutcome.success r =>
      let video_stream := r.streams.find? (fun s => s.codec_type == StreamType.video)
      let audio_stream := r.streams.find? (fun s => s.codec_type == StreamType.audio)
      { duration := r.formatDuration.getD 0
        width :=
          match video_stream with
          | some s => s.width.getD 1920
          | none => 1920
        height :=
          match video_stream with
          | some s => s.height.getD 1080
          | none => 1080
        has_audio := audio_stream.isSome }

/-- The two processing levels of `process_video_comprehensive_stable`. -/
inductive Tier where
  | standard
  | conservative
deriving Repr, DecidableEq

/-- The dispatch of `process_video_comprehensive_stable` (lines 63-70):
`is_long_video = duration > 180`, `is_large_video = width*height > 1920*1080`;
conservative processing is used when either holds. -/
def selectTier (info : VideoInfo) : Tier :=
  if info.duration > 180 ∨ info.width * info.height > 1920 * 1080
  then Tier.conservative
  else Tier.standard

/-- The subprocess timeout computed inside `process_video_comprehensive_stable`
(line 221): `480 if is_long_video else 240`. -/
def comprehensive_timeout (info : VideoInfo) : ℕ :=
  if info.duration > 180 then 480 else 240

/-- The subprocess timeout used by `process_video_conservative` (line 321). -/
def conservative_timeout : ℕ := 300

/-- The wall-clock timeout actually applied to a job's ffmpeg subprocess,
following the tier dispatch: conservative jobs run under
`process_video_conservative`'s 300-second timeout, standard jobs under the
timeout computed in `process_video_comprehensive_stable`. -/
def process_timeout (info : VideoInfo) : ℕ :=
  match selectTier info with
  | Tier.conservative => conservative_timeout
  | Tier.standard => comprehensive_timeout info

/-- The names of the functions defined by src/utils/ffmpeg_mods.py. -/
def ffmpeg_mods_defined_functions : List String :=
  ["get_video_info", "create_invisible_watermark",
   "process_video_comprehensive_stable", "process_video_conservative",
   "process_video_simple_fallback"]

/-- The symbol src/app.py line 12 imports from utils.ffmpeg_mods
(`from utils.ffmpeg_mods import build_ffmpeg_command`). -/
def app_py_imported_symbol : String := "build_ffmpeg_command"

/-! ## Embedding of src/app.py -/

/-- `MAX_FILE_SIZE = 100 * 1024 * 1024` (app.py line 25). -/
def MAX_FILE_SIZE : ℕ := 100 * 1024 * 1024

/-- `ALLOWED_EXTENSIONS` (app.py line 26). -/
def ALLOWED_EXTENSIONS : List String :=
  [".mp4", ".mov", ".avi", ".mkv", ".webm", ".m4v"]

/-- `PROCESSING_TIMEOUT = 600` (app.py line 27). -/
def PROCESSING_TIMEOUT : ℕ := 600

/-- `MAX_CONCURRENT_JOBS = 2` (app.py line 28). -/
def MAX_CONCURRENT_JOBS : ℤ := 2

/-- `UPLOAD_DIR` (app.py line 24). -/
def UPLOAD_DIR : String := "/tmp/repostproof"

/-- `input_path = os.path.join(UPLOAD_DIR, f"in_{file_id}.mp4")` (line 166). -/
def input_path (fid : String) : String := UPLOAD_DIR ++ "/in_" ++ fid ++ ".mp4"

/-- `output_path = os.path.join(UPLOAD_DIR, f"out_{file_id}.mp4")` (line 167). -/
def output_path (fid : String) : String := UPLOAD_DIR ++ "/out_" ++ fid ++ ".mp4"

/-- `validate_video_file` (app.py lines 83-93): rejects a falsy filename,
then rejects an extension outside `ALLOWED_EXTENSIONS` (extension taken from
the lowercased filename; the allowed-list suffix of the source's message is
elided).  Returns `(is_valid, message)`. -/
def validate_video_file (filename : String) : Bool × String :=
  if filename = "" then (false, "No filename provided")
  else
    let ext := String.mk (splitextExt (pyLower filename.data))
    if ext ∈ ALLOWED_EXTENSIONS then (true, "Valid")
    else (false, "File type " ++ ext ++ " not supported")

/-- The shared mutable state of the service: the `active_jobs` counter, the
key set of the `active_processes` dictionary, and the set of paths present
in the working directory. -/
structure ServerState where
  active_jobs : ℤ
  active_processes : List String
  files : List String
deriving Repr, DecidableEq

/-- What the processing attempt did once the input file was saved and the
size check passed: an exception raised before/at launching ffmpeg (e.g. by
`build_ffmpeg_command`), a `subprocess.TimeoutExpired` from `communicate`,
or a completed run with its exit code, stderr, output-file existence and
size, and the `pitch_preserved` flag the build step reported. -/
inductive ExecSpec where
  | raised (msg : String)
  | timedOut
  | finished (returncode : ℤ) (stderr : String) (outputExists : Bool)
      (outputSize : ℕ) (pitch : Bool)
deriving Repr, DecidableEq

/-- One incoming `POST /repost-proof` request together with the readings and
external outcomes its handling observes: the `get_memory_usage()` reading,
whether the multipart field `file` is present, its filename, the size of the
saved upload, and the processing outcome. -/
structure UploadRequest where
  memory_mb : ℚ
  hasFileField : Bool
  filename : String
  savedSize : ℕ
  exec : ExecSpec
deriving Repr, DecidableEq

/-- Observable side effects of handling a request, in order of occurrence. -/
inductive Event where
  | savedInput (path : String)
  | launchedProcess
deriving Repr, DecidableEq

/-- The responses the handlers of app.py can produce. -/
inductive HttpResponse where
  | serverBusy
  | serverOverloaded
  | noFileUploaded
  | noFileSelected
  | validationError (message : String)
  | fileTooLarge
  | processingFailed (code : ℕ) (details : String)
  | successJson (pitch : Bool) (withUrl : Bool)
  | sentFile (path : String)
deriving Repr, DecidableEq

/-- The HTTP status code of each response of `repost_proof`. -/
def statusCode : HttpResponse → ℕ
  | HttpResponse.serverBusy => 503
  | HttpResponse.serverOverloaded => 503
  | HttpResponse.noFileUploaded => 400
  | HttpResponse.noFileSelected => 400
  | HttpResponse.validationError _ => 400
  | HttpResponse.fileTooLarge => 413
  | HttpResponse.processingFailed c _ => c
  | HttpResponse.successJson _ _ => 200
  | HttpResponse.sentFile _ => 200

/-- How the try block of `repost_proof` ends: a returned response, or an
exception propagating to the `except` clause. -/
inductive TryOutcome where
  | ret (r : HttpResponse)
  | exn (msg : String)
deriving Repr, DecidableEq

/-- `active_processes[file_id] = process` (app.py line 204): dictionary key
insertion on the key set. -/
def dictInsert (k : String) (l : List String) : List String :=
  if k ∈ l then l else k :: l

/-- The status-code selection of the `except` clause (app.py lines 263-269):
408 when the lowercased message contains "timeout", else 507 when it
contains "memory", else 500. -/
def errorCodeFor (msg : String) : ℕ :=
  if pySub "timeout".data (pyLower msg.data) then 408
  else if pySub "memory".data (pyLower msg.data) then 507
  else 500

/-- The message of the `RuntimeError` raised on `subprocess.TimeoutExpired`
(app.py line 214). -/
def timeoutErrorMessage : String :=
  "Processing timeout - video too complex or large"

/-- The body of the `try` block of `repost_proof` (app.py lines 172-257),
entered with `active_jobs` already incremented: save the upload, reject an
oversize file with 413, then run ffmpeg and classify the outcome; returns
the try outcome, the state as it stands when the `finally` clause starts,
and the event log. -/
def tryBody (fid : String) (req : UploadRequest) (inp outp : String)
    (st : ServerState) : TryOutcome × ServerState × List Event :=
  let st1 : ServerState := ⟨st.active_jobs, st.active_processes, inp :: st.files⟩
  let ev : List Event := [Event.savedInput inp]
  if req.savedSize > MAX_FILE_SIZE then (TryOutcome.ret HttpResponse.fileTooLarge, st1, ev)
  else
    match req.exec with
    | ExecSpec.raised msg => (TryOutcome.exn msg, st1, ev)
    | ExecSpec.timedOut =>
        let st2 : ServerState :=
          ⟨st1.active_jobs, dictInsert fid st1.active_processes, st1.files⟩
        (TryOutcome.exn timeoutErrorMessage, st2, ev ++ [Event.launchedProcess])
    | ExecSpec.finished rc stderr outEx outSz pitch =>
        let st2 : ServerState :=
          ⟨st1.active_jobs, dictInsert fid st1.active_processes,
           if outEx then outp :: st1.files else st1.files⟩
        let ev2 := ev ++ [Event.launchedProcess]
        if rc ≠ 0 then
          (TryOutcome.exn ("Video processing failed: " ++ pyTake 200 stderr ++ "..."),
           st2, ev2)
        else if outEx = false then
          (TryOutcome.exn "Output file was not created", st2, ev2)
        else if outSz = 0 then
          (TryOutcome.exn "Output file is empty", st2, ev2)
        else if outSz > 50 * 1024 * 1024 then
          (TryOutcome.ret (HttpResponse.successJson pitch true), st2, ev2)
        else
          (TryOutcome.ret (HttpResponse.sentFile outp), st2, ev2)

/-- The `finally` clause of `repost_proof` (app.py lines 277-290): decrement
`active_jobs`, drop the job from `active_processes`, remove the input file.
(The delayed output-file cleanup thread of lines 292-303 fires five minutes
later and is not part of the handler's own effect.) -/
def runFinally (fid inp : String) (st : ServerState) : ServerState :=
  ⟨st.active_jobs - 1,
   st.active_processes.filter (fun k => k ≠ fid),
   st.files.filter (fun p => p ≠ inp)⟩

/-- The `repost_proof` handler (app.py lines 132-303): admission checks in
source order (concurrency, memory, field presence, empty filename,
validation), then increment `active_jobs`, run the try body, map a raised
exception to a `processingFailed` response via `errorCodeFor`, and run the
`finally` cleanup on every accepted path. -/
def repost_proof (st : ServerState) (fid : String) (req : UploadRequest) :
    HttpResponse × ServerState × List Event :=
  if st.active_jobs ≥ MAX_CONCURRENT_JOBS then (HttpResponse.serverBusy, st, [])
  else if req.memory_mb > 800 then (HttpResponse.serverOverloaded, st, [])
  else if req.hasFileField = false then (HttpResponse.noFileUploaded, st, [])
  else if req.filename = "" then (HttpResponse.noFileSelected, st, [])
  else if (validate_video_file req.filename).1 = false then
    (HttpResponse.validationError (validate_video_file req.filename).2, st, [])
  else
    match tryBody fid req (input_path fid) (output_path fid)
        ⟨st.active_jobs + 1, st.active_processes, st.files⟩ with
    | (TryOutcome.ret r, st2, ev) => (r, runFinally fid (input_path fid) st2, ev)
    | (TryOutcome.exn msg, st2, ev) =>
        (HttpResponse.processingFailed (errorCodeFor msg) (pyTake 200 msg),
         runFinally fid (input_path fid) st2, ev)

/-- Responses of the `download_file` handler. -/
inductive DlResponse where
  | invalidFilename
  | notFound
  | served (path : String)
deriving Repr, DecidableEq

/-- The `download_file` handler (app.py lines 305-315): reject a filename
containing "..", "/" or a backslash with 400, then serve the file from
`UPLOAD_DIR` if it exists, else 404. -/
def download_file (files : List String) (filename : String) : DlResponse :=
  if pySub "..".data filename.data || pySub "/".data filename.data ||
      pySub "\\".data filename.data then
    DlResponse.invalidFilename
  else
    let fp := UPLOAD_DIR ++ "/" ++ filename
    if fp ∈ files then DlResponse.served fp else DlResponse.notFound

/-! ## Interleaved admission model

The `active_jobs` check of app.py line 137 and the increment of line 170 are
separate actions of the handler, executed with no lock between them; under a
threaded server two handlers may interleave.  Each thread is modelled by the
phase it has reached, and a step either performs one thread's check (against
the current counter) or one admitted thread's increment. -/

/-- Phase of one in-flight `repost_proof` execution relative to the
admission check and the counter increment. -/
inductive JobPhase where
  | toCheck
  | toIncrement
  | working
  | rejected
deriving Repr, DecidableEq

/-- Shared counter plus the phase of every in-flight handler thread. -/
structure AdmissionState where
  count : ℤ
  threads : List JobPhase
deriving Repr, DecidableEq

/-- One atomic action of some handler thread: passing the line-137 check
(counter below the ceiling), failing it (returning the busy response), or
executing the line-170 increment after an earlier passed check. -/
inductive AdmissionStep : AdmissionState → AdmissionState → Prop where
  | checkPass (s : AdmissionState) (i : ℕ)
      (h : s.threads.get? i = some JobPhase.toCheck)
      (hlt : s.count < MAX_CONCURRENT_JOBS) :
      AdmissionStep s ⟨s.count, s.threads.set i JobPhase.toIncrement⟩
  | checkFail (s : AdmissionState) (i : ℕ)
      (h : s.threads.get? i = some JobPhase.toCheck)
      (hge : s.count ≥ MAX_CONCURRENT_JOBS) :
      AdmissionStep s ⟨s.count, s.threads.set i JobPhase.rejected⟩
  | increment (s : AdmissionState) (i : ℕ)
      (h : s.threads.get? i = some JobPhase.toIncrement) :
      AdmissionStep s ⟨s.count + 1, s.threads.set i JobPhase.working⟩

/-! ## Claims about the Transform Parameter Generator and Media Inspector -/

/-- C3: the claim says utils.ffmpeg_mods provides a build function, imported
by the service as `build_ffmpeg_command(inputPath, outputPath)`, returning
`(argv, pitchPreserved)`.  The module defines no function of that name (its
processing functions run ffmpeg themselves and return `True`), so the import
on app.py line 12 fails at startup: the symbol the service imports is not
among the module's defined functions. -/
theorem c3_missing_export : app_py_imported_symbol ∉ ffmpeg_mods_defined_functions := by
  decide

/-- C4: policy-tier selection is a pure function of the media profile:
Conservative iff duration > 180 or width*height > 1920*1080; (200 s, 1080p)
and (60 s, 4K) select Conservative, (60 s, 1080p) selects Standard. -/
theorem c4_tier_selection (info : VideoInfo) :
    (selectTier info = Tier.conservative ↔
      (info.duration > 180 ∨ info.width * info.height > 1920 * 1080)) ∧
    selectTier ⟨200, 1920, 1080, true⟩ = Tier.conservative ∧
    selectTier ⟨60, 3840, 2160, true⟩ = Tier.conservative ∧
    selectTier ⟨60, 1920, 1080, true⟩ = Tier.standard := by
  refine ⟨?_, by decide, by decide, by decide⟩
  unfold selectTier
  split
  · next hc => simp only [hc, iff_true]
  · next hc => simp [hc]

/-- C5 counterexample: the claim says the Conservative-tier timeout is
shorter than the Standard-tier timeout; in the code a Conservative job
(duration 200 s) runs under a 300 s timeout while a Standard job (60 s,
1080p) runs under a 240 s timeout, so the Conservative timeout is not
shorter. -/
theorem c5_timeout_counterexample :
    process_timeout ⟨200, 1920, 1080, true⟩ = 300 ∧
    process_timeout ⟨60, 1920, 1080, true⟩ = 240 ∧
    ¬ process_timeout ⟨200, 1920, 1080, true⟩ <
        process_timeout ⟨60, 1920, 1080, true⟩ := by
  decide

/-- C5 amended: the wall-clock timeout is tier-dependent — every
Conservative-tier job uses the 300 s timeout of `process_video_conservative`
and every Standard-tier job the 240 s timeout of
`process_video_comprehensive_stable` — but the Conservative timeout is
longer than the Standard one, not shorter. -/
theorem c5_timeout_amended (info : VideoInfo) :
    (selectTier info = Tier.conservative → process_timeout info = conservative_timeout) ∧
    (selectTier info = Tier.standard → process_timeout info = 240) ∧
    240 < conservative_timeout := by
  refine ⟨?_, ?_, by decide⟩
  · intro h
    unfold process_timeout
    rw [h]
  · intro h
    unfold process_timeout
    rw [h]
    have hd : ¬ info.duration > 180 := by
      intro hgt
      unfold selectTier at h
      rw [if_pos (Or.inl hgt)] at h
      exact absurd h (by decide)
    show comprehensive_timeout info = 240
    unfold comprehensive_timeout
    rw [if_neg hd]

/-- Witness for the amended C5 at concrete profiles. -/
theorem c5_timeout_amended_witness :
    process_timeout ⟨200, 1920, 1080, true⟩ = conservative_timeout ∧
    process_timeout ⟨60, 1280, 720, true⟩ = 240 :=
  ⟨(c5_timeout_amended ⟨200, 1920, 1080, true⟩).1 (by decide),
   (c5_timeout_amended ⟨60, 1280, 720, true⟩).2.1 (by decide)⟩

/-- A successful ffprobe report for an audio-only file: no video stream,
container duration 100 s. -/
def audio_only_report : ProbeReport := ⟨[⟨StreamType.audio, none, none⟩], some 100⟩

/-- C8 counterexample: the claim says that on a missing video stream
`get_video_info` returns exactly the default profile {30, 1920, 1080, true};
on a successful probe of an audio-only file with duration 100 s the result
keeps the probed duration, so it is not the default profile, although the
report has no video stream. -/
theorem c8_counterexample :
    get_video_info (ProbeOutcome.success audio_only_report) ≠ default_video_info ∧
    audio_only_report.streams.find?
      (fun s => s.codec_type == StreamType.video) = none := by
  decide

/-- C8 amended: `get_video_info` is total (every exception path is mapped to
the failure outcome); on subprocess failure, timeout, or malformed output it
returns exactly the default profile {30, 1920, 1080, true}; on a successful
probe whose report has no video stream only width and height fall back to
1920 and 1080, while the duration comes from the format report (0 when
absent) and the audio flag from the presence of an audio stream. -/
theorem c8_amended (r : ProbeReport)
    (h : r.streams.find? (fun s => s.codec_type == StreamType.video) = none) :
    get_video_info ProbeOutcome.failure = default_video_info ∧
    (get_video_info (ProbeOutcome.success r)).width = 1920 ∧
    (get_video_info (ProbeOutcome.success r)).height = 1080 ∧
    (get_video_info (ProbeOutcome.success r)).duration = r.formatDuration.getD 0 ∧
    (get_video_info (ProbeOutcome.success r)).has_audio =
      (r.streams.find? (fun s => s.codec_type == StreamType.audio)).isSome := by
  refine ⟨rfl, ?_, ?_, ?_, ?_⟩ <;> simp [get_video_info, h]

/-- Witness for the amended C8 at the concrete audio-only report. -/
theorem c8_amended_witness :
    (get_video_info (ProbeOutcome.success ⟨[], some 5⟩)).width = 1920 ∧
    (get_video_info (ProbeOutcome.success ⟨[], some 5⟩)).duration = 5 := by
  have h := c8_amended ⟨[], some 5⟩ (by decide)
  exact ⟨h.2.1, h.2.2.2.1⟩

/-- C10: a successful probe whose format report has no duration field yields
duration 0, not the failure default 30, and 0 fails the `duration > 180`
long-video test, so such media satisfies the duration test for the Standard
tier. -/
theorem c10_missing_duration (r : ProbeReport) (h : r.formatDuration = none) :
    (get_video_info (ProbeOutcome.success r)).duration = 0 ∧
    (get_video_info (ProbeOutcome.success r)).duration ≠ default_video_info.duration ∧
    ¬ (get_video_info (ProbeOutcome.success r)).duration > 180 := by
  have hd : (get_video_info (ProbeOutcome.success r)).duration = 0 := by
    simp [get_video_info, h]
  refine ⟨hd, ?_, ?_⟩
  · rw [hd]; decide
  · rw [hd]; norm_num

/-- Witness for C10 at a concrete duration-less 4K report. -/
theorem c10_missing_duration_witness :
    (get_video_info (ProbeOutcome.success
      ⟨[⟨StreamType.video, some 3840, some 2160⟩], none⟩)).duration = 0 :=
  (c10_missing_duration ⟨[⟨StreamType.video, some 3840, some 2160⟩], none⟩ rfl).1

/-! ## Claims about the download endpoint -/

/-- C7 counterexample: the claim says a download name that does not match
the generated-output pattern (out_<uuid>.mp4) is rejected; the handler
serves the existing file `in_abc.mp4` although its name does not start with
"out_", because the code only screens for traversal characters. -/
theorem c7_counterexample :
    download_file [UPLOAD_DIR ++ "/in_abc.mp4"] "in_abc.mp4" =
      DlResponse.served (UPLOAD_DIR ++ "/in_abc.mp4") ∧
    ("in_abc.mp4").data.take 4 ≠ ("out_").data := by
  decide

/-- C7 amended: `download_file` rejects exactly the names containing "..",
"/" or a backslash; any other name is served whenever the file exists in the
upload directory, with no check of the generated-output naming pattern. -/
theorem c7_amended (files : List String) (name : String) :
    ((pySub "..".data name.data || pySub "/".data name.data ||
        pySub "\\".data name.data) = true →
      download_file files name = DlResponse.invalidFilename) ∧
    ((pySub "..".data name.data || pySub "/".data name.data ||
        pySub "\\".data name.data) = false →
      download_file files name =
        if (UPLOAD_DIR ++ "/" ++ name) ∈ files
        then DlResponse.served (UPLOAD_DIR ++ "/" ++ name)
        else DlResponse.notFound) := by
  constructor
  · intro h
    unfold download_file
    rw [if_pos h]
  · intro h
    unfold download_file
    rw [if_neg (by simp [h])]

/-- Witness for the amended C7: a traversal name is rejected, a clean name
is served when present. -/
theorem c7_amended_witness :
    download_file [] "../etc/passwd" = DlResponse.invalidFilename ∧
    download_file [UPLOAD_DIR ++ "/out_1.mp4"] "out_1.mp4" =
      DlResponse.served (UPLOAD_DIR ++ "/out_1.mp4") := by
  refine ⟨(c7_amended [] "../etc/passwd").1 (by decide), ?_⟩
  have h := (c7_amended [UPLOAD_DIR ++ "/out_1.mp4"] "out_1.mp4").2 (by decide)
  rw [h]
  decide

/-! ## Helper lemmas about the handler's cleanup and state accounting -/

theorem runFinally_proc (fid inp : String) (st : ServerState) :
    fid ∉ (runFinally fid inp st).active_processes := by
  simp [runFinally]

theorem runFinally_files (fid inp : String) (st : ServerState) :
    inp ∉ (runFinally fid inp st).files := by
  simp [runFinally]

theorem runFinally_jobs (fid inp : String) (st : ServerState) :
    (runFinally fid inp st).active_jobs = st.active_jobs - 1 := rfl

theorem tryBody_jobs (fid : String) (req : UploadRequest) (inp outp : String)
    (st : ServerState) :
    (tryBody fid req inp outp st).2.1.active_jobs = st.active_jobs := by
  unfold tryBody
  cases req.exec <;> (repeat' split) <;> rfl

theorem tryBody_saved (fid : String) (req : UploadRequest) (inp outp : String)
    (st : ServerState) :
    Event.savedInput inp ∈ (tryBody fid req inp outp st).2.2 := by
  unfold tryBody
  cases req.exec <;> (repeat' split) <;> simp

/-! ## Claims about the Job Execution and Resource Governor -/

/-- C1: for every accepted upload (all admission checks passed, so the
counter was incremented), after `repost_proof` returns — with a success
response, a failure response, or a caught exception — the job id is no
longer in the active-process table, the concurrency counter is back to its
pre-request value, and the input file is gone; the `finally` cleanup runs on
every exit path of the try block. -/
theorem c1_cleanup (st : ServerState) (fid : String) (req : UploadRequest)
    (hadm : ¬ st.active_jobs ≥ MAX_CONCURRENT_JOBS)
    (hmem : ¬ req.memory_mb > 800)
    (hfile : req.hasFileField = true)
    (hname : ¬ req.filename = "")
    (hval : (validate_video_file req.filename).1 = true) :
    fid ∉ (repost_proof st fid req).2.1.active_processes ∧
    (repost_proof st fid req).2.1.active_jobs = st.active_jobs ∧
    input_path fid ∉ (repost_proof st fid req).2.1.files := by
  have hjobs := tryBody_jobs fid req (input_path fid) (output_path fid)
      ⟨st.active_jobs + 1, st.active_processes, st.files⟩
  unfold repost_proof
  rw [if_neg hadm, if_neg hmem, if_neg (by simp [hfile]), if_neg hname,
      if_neg (by simp [hval])]
  rcases h2 : tryBody fid req (input_path fid) (output_path fid)
      ⟨st.active_jobs + 1, st.active_processes, st.files⟩ with ⟨out, st2, ev⟩
  rw [h2] at hjobs
  have hj : st2.active_jobs = st.active_jobs + 1 := hjobs
  cases out <;>
    exact ⟨runFinally_proc _ _ _,
      by rw [runFinally_jobs, hj]; omega,
      runFinally_files _ _ _⟩

/-- Witness request for the handler claims: memory low, file present, a
valid .mp4 name, a small upload, and a clean ffmpeg run. -/
def acceptedRequest : UploadRequest :=
  ⟨0, true, "clip.mp4", 5, ExecSpec.finished 0 "" true 7 true⟩

/-- Witness for C1 at a concrete accepted request. -/
theorem c1_cleanup_witness :
    "job1" ∉ (repost_proof ⟨0, [], []⟩ "job1" acceptedRequest).2.1.active_processes ∧
    (repost_proof ⟨0, [], []⟩ "job1" acceptedRequest).2.1.active_jobs = 0 ∧
    input_path "job1" ∉ (repost_proof ⟨0, [], []⟩ "job1" acceptedRequest).2.1.files :=
  c1_cleanup ⟨0, [], []⟩ "job1" acceptedRequest (by decide) (by decide) rfl
    (by decide) (by decide)

/-- C2 counterexample: the claim says the number of active jobs never
exceeds the ceiling (2) at any point of execution under any concurrent
submission pattern.  The line-137 check and the line-170 increment are
separate unsynchronized actions, so three interleaved handler threads can
all pass the check at counter 0 and then all increment, reaching counter 3,
which exceeds the ceiling. -/
theorem c2_interleaving_counterexample :
    Relation.ReflTransGen AdmissionStep
      ⟨0, [JobPhase.toCheck, JobPhase.toCheck, JobPhase.toCheck]⟩
      ⟨3, [JobPhase.working, JobPhase.working, JobPhase.working]⟩ ∧
    (3 : ℤ) > MAX_CONCURRENT_JOBS := by
  constructor
  · have s1 : AdmissionStep
        ⟨0, [JobPhase.toCheck, JobPhase.toCheck, JobPhase.toCheck]⟩
        ⟨0, [JobPhase.toIncrement, JobPhase.toCheck, JobPhase.toCheck]⟩ :=
      AdmissionStep.checkPass _ 0 rfl (by decide)
    have s2 : AdmissionStep
        ⟨0, [JobPhase.toIncrement, JobPhase.toCheck, JobPhase.toCheck]⟩
        ⟨0, [JobPhase.toIncrement, JobPhase.toIncrement, JobPhase.toCheck]⟩ :=
      AdmissionStep.checkPass _ 1 rfl (by decide)
    have s3 : AdmissionStep
        ⟨0, [JobPhase.toIncrement, JobPhase.toIncrement, JobPhase.toCheck]⟩
        ⟨0, [JobPhase.toIncrement, JobPhase.toIncrement, JobPhase.toIncrement]⟩ :=
      AdmissionStep.checkPass _ 2 rfl (by decide)
    have s4 : AdmissionStep
        ⟨0, [JobPhase.toIncrement, JobPhase.toIncrement, JobPhase.toIncrement]⟩
        ⟨1, [JobPhase.working, JobPhase.toIncrement, JobPhase.toIncrement]⟩ :=
      AdmissionStep.increment _ 0 rfl
    have s5 : AdmissionStep
        ⟨1, [JobPhase.working, JobPhase.toIncrement, JobPhase.toIncrement]⟩
        ⟨2, [JobPhase.working, JobPhase.working, JobPhase.toIncrement]⟩ :=
      AdmissionStep.increment _ 1 rfl
    have s6 : AdmissionStep
        ⟨2, [JobPhase.working, JobPhase.working, JobPhase.toIncrement]⟩
        ⟨3, [JobPhase.working, JobPhase.working, JobPhase.working]⟩ :=
      AdmissionStep.increment _ 2 rfl
    exact Relation.ReflTransGen.head s1 (Relation.ReflTransGen.head s2
      (Relation.ReflTransGen.head s3 (Relation.ReflTransGen.head s4
        (Relation.ReflTransGen.head s5 (Relation.ReflTransGen.single s6)))))
  · decide

/-- C2 amended: when handler executions are serialized, a submission
arriving with the counter at or above the ceiling is rejected with the
'Server busy' response (HTTP 503) before any other work, leaving the state
untouched, and every call leaves the counter exactly where it found it (so
the counter never exceeds the ceiling across serialized requests); the
unsynchronized check-then-increment makes the ceiling violable only under
concurrent interleavings. -/
theorem c2_serialized_amended (st : ServerState) (fid : String) (req : UploadRequest) :
    (st.active_jobs ≥ MAX_CONCURRENT_JOBS →
      repost_proof st fid req = (HttpResponse.serverBusy, st, []) ∧
      statusCode HttpResponse.serverBusy = 503) ∧
    (repost_proof st fid req).2.1.active_jobs = st.active_jobs := by
  constructor
  · intro h
    unfold repost_proof
    rw [if_pos h]
    exact ⟨rfl, rfl⟩
  · unfold repost_proof
    split
    · rfl
    split
    · rfl
    split
    · rfl
    split
    · rfl
    split
    · rfl
    have hjobs := tryBody_jobs fid req (input_path fid) (output_path fid)
        ⟨st.active_jobs + 1, st.active_processes, st.files⟩
    rcases h2 : tryBody fid req (input_path fid) (output_path fid)
        ⟨st.active_jobs + 1, st.active_processes, st.files⟩ with ⟨out, st2, ev⟩
    rw [h2] at hjobs
    have hj : st2.active_jobs = st.active_jobs + 1 := hjobs
    cases out <;>
      exact (by rw [runFinally_jobs, hj]; omega :
        (runFinally fid (input_path fid) st2).active_jobs = st.active_jobs)

/-- Witness for the amended C2: a request at the ceiling is turned away with
the busy response, and an accepted request restores the counter. -/
theorem c2_serialized_amended_witness :
    repost_proof ⟨2, [], []⟩ "j2" acceptedRequest =
      (HttpResponse.serverBusy, ⟨2, [], []⟩, []) ∧
    (repost_proof ⟨0, [], []⟩ "j2" acceptedRequest).2.1.active_jobs = 0 :=
  ⟨((c2_serialized_amended ⟨2, [], []⟩ "j2" acceptedRequest).1 (by decide)).1,
   (c2_serialized_amended ⟨0, [], []⟩ "j2" acceptedRequest).2⟩

/-- C6 counterexample: the claim says validation errors — bad extension,
empty file, oversize upload — are rejected before any resource is consumed,
the upload-size limit in particular before the bytes are persisted.  For an
oversize upload that passes the earlier checks, the handler returns 413 but
its event log contains the save of the input file: the bytes were written to
disk before the size check ran.  And a zero-byte upload with a valid name is
not rejected at all: it is saved to disk and, here, processed and served. -/
theorem c6_oversize_counterexample :
    (repost_proof ⟨0, [], []⟩ "j6"
        ⟨0, true, "big.mp4", MAX_FILE_SIZE + 1, ExecSpec.finished 0 "" true 7 true⟩).1 =
      HttpResponse.fileTooLarge ∧
    Event.savedInput (input_path "j6") ∈
      (repost_proof ⟨0, [], []⟩ "j6"
        ⟨0, true, "big.mp4", MAX_FILE_SIZE + 1, ExecSpec.finished 0 "" true 7 true⟩).2.2 ∧
    (repost_proof ⟨0, [], []⟩ "j6e"
        ⟨0, true, "empty.mp4", 0, ExecSpec.finished 0 "" true 7 true⟩).1 =
      HttpResponse.sentFile (output_path "j6e") ∧
    Event.savedInput (input_path "j6e") ∈
      (repost_proof ⟨0, [], []⟩ "j6e"
        ⟨0, true, "empty.mp4", 0, ExecSpec.finished 0 "" true 7 true⟩).2.2 := by
  decide

theorem errorCodeFor_cases (msg : String) :
    errorCodeFor msg = 408 ∨ errorCodeFor msg = 507 ∨ errorCodeFor msg = 500 := by
  unfold errorCodeFor
  split
  · exact Or.inl rfl
  split
  · exact Or.inr (Or.inl rfl)
  · exact Or.inr (Or.inr rfl)

theorem tryBody_outcome (fid : String) (req : UploadRequest) (inp outp : String)
    (st : ServerState) (hsize : ¬ req.savedSize > MAX_FILE_SIZE) :
    (∃ m, (tryBody fid req inp outp st).1 = TryOutcome.exn m) ∨
    (∃ r, (tryBody fid req inp outp st).1 = TryOutcome.ret r ∧ statusCode r = 200) := by
  unfold tryBody
  rw [if_neg hsize]
  cases req.exec with
  | raised m => exact Or.inl ⟨m, rfl⟩
  | timedOut => exact Or.inl ⟨timeoutErrorMessage, rfl⟩
  | finished rc stderr outEx outSz pitch =>
      repeat' split
      all_goals first
        | exact Or.inl ⟨_, rfl⟩
        | exact Or.inr ⟨_, rfl, rfl⟩

/-- C6 amended: empty-filename and bad-extension uploads are rejected
synchronously with HTTP 400 before any file I/O, leaving the state untouched
with no event; there is no empty-file-content check at all — a zero-byte
upload with a valid filename is saved to disk and processed rather than
rejected (its response is never a 400 or 413); and the upload-size limit is
enforced only after the uploaded bytes have been persisted: an oversize
upload is answered 413 after a save event, and the written input file is
then removed by the `finally` cleanup. -/
theorem c6_validation_amended (st : ServerState) (fid : String) (req : UploadRequest)
    (hadm : ¬ st.active_jobs ≥ MAX_CONCURRENT_JOBS)
    (hmem : ¬ req.memory_mb > 800)
    (hfile : req.hasFileField = true) :
    (req.filename = "" →
      repost_proof st fid req = (HttpResponse.noFileSelected, st, []) ∧
      statusCode HttpResponse.noFileSelected = 400) ∧
    (¬ req.filename = "" → (validate_video_file req.filename).1 = false →
      repost_proof st fid req =
        (HttpResponse.validationError (validate_video_file req.filename).2, st, []) ∧
      statusCode (HttpResponse.validationError (validate_video_file req.filename).2) = 400) ∧
    (¬ req.filename = "" → (validate_video_file req.filename).1 = true →
      req.savedSize > MAX_FILE_SIZE →
      (repost_proof st fid req).1 = HttpResponse.fileTooLarge ∧
      Event.savedInput (input_path fid) ∈ (repost_proof st fid req).2.2 ∧
      input_path fid ∉ (repost_proof st fid req).2.1.files) ∧
    (¬ req.filename = "" → (validate_video_file req.filename).1 = true →
      req.savedSize = 0 →
      Event.savedInput (input_path fid) ∈ (repost_proof st fid req).2.2 ∧
      statusCode (repost_proof st fid req).1 ≠ 400 ∧
      statusCode (repost_proof st fid req).1 ≠ 413) := by
  refine ⟨?_, ?_, ?_, ?_⟩
  · intro h0
    unfold repost_proof
    rw [if_neg hadm, if_neg hmem, if_neg (by simp [hfile]), if_pos h0]
    exact ⟨rfl, rfl⟩
  · intro hname hv
    unfold repost_proof
    rw [if_neg hadm, if_neg hmem, if_neg (by simp [hfile]), if_neg hname, if_pos hv]
    exact ⟨rfl, rfl⟩
  · intro hname hv hsize
    unfold repost_proof
    rw [if_neg hadm, if_neg hmem, if_neg (by simp [hfile]), if_neg hname,
        if_neg (by simp [hv])]
    have hsave := tryBody_saved fid req (input_path fid) (output_path fid)
        ⟨st.active_jobs + 1, st.active_processes, st.files⟩
    rcases h2 : tryBody fid req (input_path fid) (output_path fid)
        ⟨st.active_jobs + 1, st.active_processes, st.files⟩ with ⟨out, st2, ev⟩
    rw [h2] at hsave
    have hret : out = TryOutcome.ret HttpResponse.fileTooLarge := by
      have := congrArg (fun t => t.1) h2
      simp only at this
      rw [← this]
      unfold tryBody
      rw [if_pos hsize]
    subst hret
    exact ⟨rfl, hsave, runFinally_files _ _ _⟩
  · intro hname hv h0
    have hsize : ¬ req.savedSize > MAX_FILE_SIZE := by
      rw [h0]; decide
    unfold repost_proof
    rw [if_neg hadm, if_neg hmem, if_neg (by simp [hfile]), if_neg hname,
        if_neg (by simp [hv])]
    have hsave := tryBody_saved fid req (input_path fid) (output_path fid)
        ⟨st.active_jobs + 1, st.active_processes, st.files⟩
    have houtc := tryBody_outcome fid req (input_path fid) (output_path fid)
        ⟨st.active_jobs + 1, st.active_processes, st.files⟩ hsize
    rcases h2 : tryBody fid req (input_path fid) (output_path fid)
        ⟨st.active_jobs + 1, st.active_processes, st.files⟩ with ⟨out, st2, ev⟩
    rw [h2] at hsave houtc
    rcases houtc with ⟨m, hm⟩ | ⟨r, hr, hs⟩
    · have hout : out = TryOutcome.exn m := hm
      subst hout
      refine ⟨hsave, ?_, ?_⟩ <;>
        · show errorCodeFor m ≠ _
          rcases errorCodeFor_cases m with h | h | h <;> rw [h] <;> decide
    · have hout : out = TryOutcome.ret r := hr
      subst hout
      refine ⟨hsave, ?_, ?_⟩ <;>
        · show statusCode r ≠ _
          rw [hs]
          decide

/-- Witness for the amended C6: an empty filename and a .txt upload are each
rejected 400 with no side effect; an oversize .mp4 upload is rejected 413
after the input file was written; a zero-byte .mp4 upload is not answered
with a 400 response. -/
theorem c6_validation_amended_witness :
    repost_proof ⟨0, [], []⟩ "j6a" ⟨0, true, "", 5, ExecSpec.timedOut⟩ =
      (HttpResponse.noFileSelected, ⟨0, [], []⟩, []) ∧
    repost_proof ⟨0, [], []⟩ "j6b" ⟨0, true, "notes.txt", 5, ExecSpec.timedOut⟩ =
      (HttpResponse.validationError "File type .txt not supported", ⟨0, [], []⟩, []) ∧
    (repost_proof ⟨0, [], []⟩ "j6c"
        ⟨0, true, "big.mp4", MAX_FILE_SIZE + 2, ExecSpec.timedOut⟩).1 =
      HttpResponse.fileTooLarge ∧
    statusCode (repost_proof ⟨0, [], []⟩ "j6d"
        ⟨0, true, "tiny.mp4", 0, ExecSpec.timedOut⟩).1 ≠ 400 := by
  refine ⟨?_, ?_, ?_, ?_⟩
  · exact ((c6_validation_amended ⟨0, [], []⟩ "j6a" ⟨0, true, "", 5, ExecSpec.timedOut⟩
      (by decide) (by decide) rfl).1 rfl).1
  · exact ((c6_validation_amended ⟨0, [], []⟩ "j6b"
      ⟨0, true, "notes.txt", 5, ExecSpec.timedOut⟩
      (by decide) (by decide) rfl).2.1 (by decide) (by decide)).1
  · exact ((c6_validation_amended ⟨0, [], []⟩ "j6c"
      ⟨0, true, "big.mp4", MAX_FILE_SIZE + 2, ExecSpec.timedOut⟩
      (by decide) (by decide) rfl).2.2.1 (by decide) (by decide) (by decide)).1
  · exact ((c6_validation_amended ⟨0, [], []⟩ "j6d"
      ⟨0, true, "tiny.mp4", 0, ExecSpec.timedOut⟩
      (by decide) (by decide) rfl).2.2.2 (by decide) (by decide) rfl).2.1

/-- C9: when the try block of the processing endpoint ends in a caught
exception with message `msg`, the failure response's status code is chosen
by case-insensitive substring matching on `msg`: 408 if it contains
"timeout", otherwise 507 if it contains "memory", otherwise 500 — and the
timeout path raises a message containing "timeout", so a timed-out job is
answered 408. -/
theorem c9_error_code (st : ServerState) (fid : String) (req : UploadRequest) (msg : String)
    (hadm : ¬ st.active_jobs ≥ MAX_CONCURRENT_JOBS)
    (hmem : ¬ req.memory_mb > 800)
    (hfile : req.hasFileField = true)
    (hname : ¬ req.filename = "")
    (hval : (validate_video_file req.filename).1 = true)
    (hsize : ¬ req.savedSize > MAX_FILE_SIZE) :
    (req.exec = ExecSpec.raised msg →
      (repost_proof st fid req).1 =
        HttpResponse.processingFailed
          (if pySub "timeout".data (pyLower msg.data) then 408
           else if pySub "memory".data (pyLower msg.data) then 507
           else 500)
          (pyTake 200 msg)) ∧
    (req.exec = ExecSpec.timedOut →
      (repost_proof st fid req).1 =
        HttpResponse.processingFailed 408 (pyTake 200 timeoutErrorMessage)) := by
  constructor
  · intro hexec
    unfold repost_proof
    rw [if_neg hadm, if_neg hmem, if_neg (by simp [hfile]), if_neg hname,
        if_neg (by simp [hval])]
    rcases h2 : tryBody fid req (input_path fid) (output_path fid)
        ⟨st.active_jobs + 1, st.active_processes, st.files⟩ with ⟨out, st2, ev⟩
    have hret : out = TryOutcome.exn msg := by
      have := congrArg (fun t => t.1) h2
      simp only at this
      rw [← this]
      unfold tryBody
      rw [if_neg hsize, hexec]
    subst hret
    rfl
  · intro hexec
    unfold repost_proof
    rw [if_neg hadm, if_neg hmem, if_neg (by simp [hfile]), if_neg hname,
        if_neg (by simp [hval])]
    rcases h2 : tryBody fid req (input_path fid) (output_path fid)
        ⟨st.active_jobs + 1, st.active_processes, st.files⟩ with ⟨out, st2, ev⟩
    have hret : out = TryOutcome.exn timeoutErrorMessage := by
      have := congrArg (fun t => t.1) h2
      simp only at this
      rw [← this]
      unfold tryBody
      rw [if_neg hsize, hexec]
    subst hret
    show HttpResponse.processingFailed (errorCodeFor timeoutErrorMessage)
        (pyTake 200 timeoutErrorMessage) =
      HttpResponse.processingFailed 408 (pyTake 200 timeoutErrorMessage)
    have hc : errorCodeFor timeoutErrorMessage = 408 := by decide
    rw [hc]

/-- Witness for C9: a raised message containing "MEMORY" (upper case) is
answered 507, and a timed-out run is answered 408. -/
theorem c9_error_code_witness :
    (repost_proof ⟨0, [], []⟩ "j9"
        ⟨0, true, "v.mp4", 5, ExecSpec.raised "Out of MEMORY"⟩).1 =
      HttpResponse.processingFailed 507 (pyTake 200 "Out of MEMORY") ∧
    (repost_proof ⟨0, [], []⟩ "j9t"
        ⟨0, true, "v.mp4", 5, ExecSpec.timedOut⟩).1 =
      HttpResponse.processingFailed 408 (pyTake 200 timeoutErrorMessage) := by
  constructor
  · have h := (c9_error_code ⟨0, [], []⟩ "j9"
        ⟨0, true, "v.mp4", 5, ExecSpec.raised "Out of MEMORY"⟩ "Out of MEMORY"
        (by decide) (by decide) rfl (by decide) (by decide) (by decide)).1 rfl
    rw [h]
    decide
  · exact (c9_error_code ⟨0, [], []⟩ "j9t"
      ⟨0, true, "v.mp4", 5, ExecSpec.timedOut⟩ "unused"
      (by decide) (by decide) rfl (by decide) (by decide) (by decide)).2 rfl
